import Mathlib

/-!
Verification of the FinCloud dual-mode persistence and financial
aggregation engine.

The repository is a Node.js microservice suite.  This file gives a
shallow embedding of its core:

* the transaction-service request validation (Joi schema), amount-sign
  normalization and the in-memory mock document store
  (`src/transaction-service/src/routes/transactionRoutes.js` and
  `src/transaction-service/src/models/Transaction.js`);
* the user-service mock SQL pool with its substring-based query
  dispatcher, and the relational semantics of the live SQL queries
  (`src/user-service/src/server.js` and
  `src/user-service/src/config/database.js`).

JavaScript numbers carrying money amounts are modelled as rationals
(`ℚ`), dates as integer timestamps (`Int`), and JavaScript
`undefined`/absent fields as `Option`.
-/

set_option maxRecDepth 40000

namespace FinCloud

/-! ## Transaction data model (transaction-service) -/

/-- A stored transaction document.  Fields are exactly those set by the
`MockTransaction` constructor (Transaction.js, lines 196-210); the
mongoose schema stores the same fields. -/
structure Txn where
  _id : String
  userId : String
  amount : ℚ
  description : String
  category : String
  ttype : String
  date : Int
  tags : List String
  isRecurring : Bool
  recurringPeriod : Option String
  createdAt : Int
  updatedAt : Int
deriving DecidableEq, Repr

/-- A transaction create/update request body, after JSON parsing.
Optional fields are `Option`; an absent field is `none`. -/
structure TxnPayload where
  userId : String
  amount : ℚ
  description : String
  category : String
  ttype : String
  date : Option Int
  tags : Option (List String)
  isRecurring : Option Bool
  recurringPeriod : Option String
deriving DecidableEq, Repr

/-- The fixed category enumeration from the Joi schema
(transactionRoutes.js, lines 18-22) and the mongoose schema. -/
def categoryEnum : List String :=
  ["food", "transport", "entertainment", "shopping", "bills",
   "health", "education", "salary", "freelance", "investment",
   "gift", "other"]

/-- The fixed recurrence-period enumeration (transactionRoutes.js,
line 27). -/
def recurringPeriodEnum : List String :=
  ["daily", "weekly", "monthly", "yearly"]

/-- The Joi `transactionSchema` of transactionRoutes.js (lines 14-28):
`userId` required string, `amount` a number that is not 0,
`description` a required string of at most 200 characters (Joi strings
reject the empty string), `category` and `type` restricted to their
enumerations, `date`/`tags`/`isRecurring` optional and unconstrained,
`recurringPeriod` optional but restricted to its enumeration when
present.  Note that the schema does NOT make `recurringPeriod`
conditionally required on `isRecurring`. -/
def joiValid (p : TxnPayload) : Bool :=
  decide (p.userId ≠ "") &&
  decide (p.amount ≠ 0) &&
  decide (p.description ≠ "") &&
  decide (p.description.length ≤ 200) &&
  decide (p.category ∈ categoryEnum) &&
  (decide (p.ttype = "income") || decide (p.ttype = "expense")) &&
  (match p.recurringPeriod with
   | none => true
   | some r => decide (r ∈ recurringPeriodEnum))

/-- The amount-sign normalization performed by the create and update
routes immediately after validation (transactionRoutes.js, lines 41-46
and 157-162):

    if (value.type === 'expense' && value.amount > 0) {
      value.amount = -Math.abs(value.amount);
    } else if (value.type === 'income' && value.amount < 0) {
      value.amount = Math.abs(value.amount);
    }
-/
def normalizePayload (p : TxnPayload) : TxnPayload :=
  if p.ttype = "expense" ∧ p.amount > 0 then
    { p with amount := -|p.amount| }
  else if p.ttype = "income" ∧ p.amount < 0 then
    { p with amount := |p.amount| }
  else
    p

/-- The `MockTransaction` constructor (Transaction.js, lines 197-210):
assigns a fresh id, copies the validated fields, defaults `date` to
now, `tags` to `[]` and `isRecurring` to `false`.  (The JS defaults use
`||`; a present `Date` object or array is always truthy, and
`false || false = false`, so `Option.getD` is a faithful rendering.) -/
def mkMockTransaction (freshId : String) (now : Int) (data : TxnPayload) : Txn :=
  { _id := freshId
    userId := data.userId
    amount := data.amount
    description := data.description
    category := data.category
    ttype := data.ttype
    date := data.date.getD now
    tags := data.tags.getD []
    isRecurring := data.isRecurring.getD false
    recurringPeriod := data.recurringPeriod
    createdAt := now
    updatedAt := now }

/-- A live-mode mongoose document built from the same validated value:
the schema (Transaction.js, lines 17-78) defaults `date` to now and
`isRecurring` to `false`, stores the amount unchanged and timestamps
the document. -/
def mkLiveTransaction (freshId : String) (now : Int) (data : TxnPayload) : Txn :=
  { _id := freshId
    userId := data.userId
    amount := data.amount
    description := data.description
    category := data.category
    ttype := data.ttype
    date := data.date.getD now
    tags := data.tags.getD []
    isRecurring := data.isRecurring.getD false
    recurringPeriod := data.recurringPeriod
    createdAt := now
    updatedAt := now }

/-- The conditional requirement declared by the mongoose schema
(Transaction.js, lines 67-73): `recurringPeriod` is required exactly
when `isRecurring` is set.  This check runs only on the live path
(document validation at save time); the mock store never runs it. -/
def mongooseRecurringOk (t : Txn) : Bool :=
  !t.isRecurring || t.recurringPeriod.isSome

/-! ## User-service: mock SQL pool and live relational semantics -/

/-- Contiguous-substring test on character lists, the semantics of
JavaScript `String.prototype.includes`. -/
def charsContains (hay needle : List Char) : Bool :=
  match hay with
  | [] => needle.isEmpty
  | c :: t => needle.isPrefixOf (c :: t) || charsContains t needle

/-- `hay.includes(needle)` on strings. -/
def includesStr (hay needle : String) : Bool :=
  charsContains hay.toList needle.toList

/-- SQL text of the register route's duplicate-email check
(server.js, line 96). -/
def selectUserByEmailText : String :=
  "SELECT id FROM users WHERE email = @email"

/-- SQL text of the register route's user insert (server.js,
lines 114-118). -/
def insertUserText : String :=
  "\n        INSERT INTO users (email, password, name, age) \n        OUTPUT inserted.id, inserted.email, inserted.name, inserted.age, inserted.created_at\n        VALUES (@email, @password, @name, @age)\n      "

/-- SQL text of the register route's default-profile insert
(server.js, lines 125-128). -/
def insertProfileText : String :=
  "\n        INSERT INTO user_profiles (user_id, monthly_income, spending_limit) \n        VALUES (@user_id, 0, 0)\n      "

/-- SQL text of the GET profile route's left-join lookup (server.js,
lines 240-247).  Note that it contains the substrings `SELECT`,
`users` and `email` (via `u.email`). -/
def profileSelectText : String :=
  "\n        SELECT \n          u.id, u.email, u.name, u.age, u.created_at,\n          p.monthly_income, p.financial_goals, p.spending_limit\n        FROM users u\n        LEFT JOIN user_profiles p ON u.id = p.user_id\n        WHERE u.id = @id AND u.is_active = 1\n      "

/-- SQL text of the PUT profile route's users update (server.js,
lines 294-300). -/
def updateUsersText : String :=
  "\n          UPDATE users \n          SET name = COALESCE(@name, name),\n              age = COALESCE(@age, age),\n              updated_at = GETDATE()\n          WHERE id = @id\n        "

/-- SQL text of the PUT profile route's user_profiles update
(server.js, lines 310-317). -/
def updateProfilesText : String :=
  "\n          UPDATE user_profiles \n          SET monthly_income = COALESCE(@monthly_income, monthly_income),\n              financial_goals = COALESCE(@financial_goals, financial_goals),\n              spending_limit = COALESCE(@spending_limit, spending_limit),\n              updated_at = GETDATE()\n          WHERE user_id = @user_id\n        "

/-- A user row of the mock store: exactly the fields the mock
`INSERT INTO users` branch sets (database.js, lines 126-135).  The
inputs it copies may be absent, hence the `Option` fields; `id`,
`created_at` and `is_active` are always set. -/
structure MockUserRow where
  id : String
  email : Option String
  password : Option String
  name : Option String
  age : Option Int
  created_at : Int
  is_active : Bool
deriving DecidableEq, Repr

/-- A profile row of the mock store: the fields set by the mock
`INSERT INTO user_profiles` branch (database.js, lines 141-147).
`financial_goals` is never set by the mock, so the row has no such
field. -/
structure MockProfileRow where
  id : String
  user_id : Option String
  monthly_income : ℚ
  spending_limit : ℚ
deriving DecidableEq, Repr

/-- The two in-memory tables of the mock database (database.js,
lines 5-8), in insertion order. -/
structure MockDB where
  users : List MockUserRow
  user_profiles : List MockProfileRow
deriving DecidableEq, Repr

/-- The named inputs accumulated by `request().input(...)` before a
query; an input not provided is JavaScript `undefined`, here `none`. -/
structure MockInputs where
  email : Option String := none
  password : Option String := none
  name : Option String := none
  age : Option Int := none
  id : Option String := none
  user_id : Option String := none
  monthly_income : Option ℚ := none
  financial_goals : Option String := none
  spending_limit : Option ℚ := none
deriving DecidableEq, Repr

/-- A duck-typed recordset row: union of the row shapes the four mock
branches return; absent properties are `none`. -/
structure MockRsRow where
  id : Option String := none
  email : Option String := none
  password : Option String := none
  name : Option String := none
  age : Option Int := none
  created_at : Option Int := none
  is_active : Option Bool := none
  user_id : Option String := none
  monthly_income : Option ℚ := none
  financial_goals : Option String := none
  spending_limit : Option ℚ := none
deriving DecidableEq, Repr

/-- A stored mock user as a recordset row. -/
def userToRs (u : MockUserRow) : MockRsRow :=
  { id := some u.id, email := u.email, password := u.password,
    name := u.name, age := u.age, created_at := some u.created_at,
    is_active := some u.is_active }

/-- A stored mock profile as a recordset row. -/
def profileToRs (p : MockProfileRow) : MockRsRow :=
  { id := some p.id, user_id := p.user_id,
    monthly_income := some p.monthly_income,
    spending_limit := some p.spending_limit }

/-- The row built by the mock join branch (database.js, lines 157-166):
the user object spread, plus `monthly_income`/`spending_limit`
defaulted to 0 by `?. ... || 0` and `financial_goals` to null (mock
profiles never carry goals). -/
def joinedToRs (u : MockUserRow) (p : Option MockProfileRow) : MockRsRow :=
  { id := some u.id, email := u.email, password := u.password,
    name := u.name, age := u.age, created_at := some u.created_at,
    is_active := some u.is_active,
    monthly_income := some (match p with | some pr => pr.monthly_income | none => 0),
    financial_goals := none,
    spending_limit := some (match p with | some pr => pr.spending_limit | none => 0) }

/-- The mock pool's query dispatcher (database.js, lines 109-174).
The branch taken is decided by substring tests on the raw SQL text;
a query matching no branch returns an empty recordset and leaves the
store untouched.  `fresh` stands for the `crypto.randomUUID()` result
and `now` for `new Date()`.  JavaScript `===` between a field that may
be `undefined` and an input that may be `undefined` is `Option`
equality. -/
def mockQuery (db : MockDB) (inp : MockInputs) (fresh : String) (now : Int)
    (q : String) : MockDB × List MockRsRow :=
  if includesStr q "SELECT" && includesStr q "users" && includesStr q "email" then
    (db, match db.users.find? (fun u => decide (u.email = inp.email)) with
         | some u => [userToRs u]
         | none => [])
  else if includesStr q "INSERT INTO users" then
    let u : MockUserRow :=
      { id := fresh, email := inp.email, password := inp.password,
        name := inp.name, age := inp.age, created_at := now, is_active := true }
    ({ db with users := db.users ++ [u] }, [userToRs u])
  else if includesStr q "INSERT INTO user_profiles" then
    let p : MockProfileRow :=
      { id := fresh, user_id := inp.user_id,
        monthly_income := inp.monthly_income.getD 0,
        spending_limit := inp.spending_limit.getD 0 }
    ({ db with user_profiles := db.user_profiles ++ [p] }, [profileToRs p])
  else if includesStr q "SELECT" && includesStr q "user_profiles" then
    (db, match db.users.find? (fun u => decide (some u.id = inp.id)) with
         | some u =>
             [joinedToRs u (db.user_profiles.find? (fun p => decide (p.user_id = inp.id)))]
         | none => [])
  else
    (db, [])

/-- A row of the live `users` table (database.js, lines 62-74). -/
structure SqlUser where
  id : String
  email : String
  password : String
  name : String
  age : Option Int
  created_at : Int
  updated_at : Int
  is_active : Bool
deriving DecidableEq, Repr

/-- A row of the live `user_profiles` table (database.js,
lines 77-89). -/
structure SqlProfile where
  id : String
  user_id : String
  monthly_income : ℚ
  financial_goals : Option String
  spending_limit : ℚ
  created_at : Int
  updated_at : Int
deriving DecidableEq, Repr

/-- The live relational store. -/
structure SqlDB where
  users : List SqlUser
  user_profiles : List SqlProfile
deriving DecidableEq, Repr

/-- Columns selected by the live profile lookup; profile columns are
nullable because of the LEFT JOIN. -/
structure ProfileView where
  id : String
  email : String
  name : String
  age : Option Int
  created_at : Int
  monthly_income : Option ℚ
  financial_goals : Option String
  spending_limit : Option ℚ
deriving DecidableEq, Repr

/-- One user row left-joined against `user_profiles` on
`u.id = p.user_id`: profile columns are NULL when no profile row
matches. -/
def joinView (profiles : List SqlProfile) (u : SqlUser) : ProfileView :=
  match profiles.find? (fun p => decide (p.user_id = u.id)) with
  | some p =>
      { id := u.id, email := u.email, name := u.name, age := u.age,
        created_at := u.created_at, monthly_income := some p.monthly_income,
        financial_goals := p.financial_goals,
        spending_limit := some p.spending_limit }
  | none =>
      { id := u.id, email := u.email, name := u.name, age := u.age,
        created_at := u.created_at, monthly_income := none,
        financial_goals := none, spending_limit := none }

/-- Relational semantics of the live GET profile query (server.js,
lines 240-247): left join filtered by `u.id = @id AND u.is_active = 1`. -/
def liveGetProfile (db : SqlDB) (uid : String) : List ProfileView :=
  (db.users.filter (fun u => decide (u.id = uid) && u.is_active)).map
    (joinView db.user_profiles)

/-- JavaScript truthiness of the `name` body field used by the PUT
profile route's guard `if (name || age !== undefined)`: absent, null
and the empty string are falsy. -/
def nameTruthy : Option String → Bool
  | none => false
  | some s => !(s == "")

/-- Effect of the live `UPDATE users SET name = COALESCE(@name, name),
age = COALESCE(@age, age), updated_at = GETDATE() WHERE id = @id` on a
single row. -/
def sqlUpdateUserRow (uid : String) (nm : Option String) (ag : Option Int)
    (now : Int) (u : SqlUser) : SqlUser :=
  if u.id = uid then
    { u with name := nm.getD u.name,
             age := match ag with | some a => some a | none => u.age,
             updated_at := now }
  else u

/-- The users half of the live PUT profile route (server.js, lines
289-301): the UPDATE runs only when `name` is truthy or `age` is not
undefined. -/
def putProfileUsersPart (users : List SqlUser) (uid : String)
    (nm : Option String) (ag : Option Int) (now : Int) : List SqlUser :=
  if nameTruthy nm || ag.isSome then
    users.map (sqlUpdateUserRow uid nm ag now)
  else users

/-- Effect of the live `UPDATE user_profiles SET ... COALESCE ...
WHERE user_id = @user_id` on a single row. -/
def sqlUpdateProfileRow (uid : String) (mi : Option ℚ) (fg : Option String)
    (sl : Option ℚ) (now : Int) (p : SqlProfile) : SqlProfile :=
  if p.user_id = uid then
    { p with monthly_income := mi.getD p.monthly_income,
             financial_goals := match fg with | some s => some s | none => p.financial_goals,
             spending_limit := sl.getD p.spending_limit,
             updated_at := now }
  else p

/-- The profiles half of the live PUT profile route (server.js, lines
304-318): runs only when one of the three fields is not undefined. -/
def putProfileProfilesPart (profiles : List SqlProfile) (uid : String)
    (mi : Option ℚ) (fg : Option String) (sl : Option ℚ) (now : Int) :
    List SqlProfile :=
  if mi.isSome || fg.isSome || sl.isSome then
    profiles.map (sqlUpdateProfileRow uid mi fg sl now)
  else profiles

/-- Outcome of the register route, past Joi validation (server.js,
lines 80-155). -/
inductive RegisterOutcome where
  | conflict
  | created (id email name : String) (age : Option Int)
  | internalError
deriving DecidableEq, Repr

/-- The live register flow: duplicate-email SELECT, then user INSERT
(with the schema defaults `is_active = 1`, timestamps now) and
default-profile INSERT `(user_id, 0, 0)`. -/
def registerLive (db : SqlDB) (email password name : String) (age : Option Int)
    (uid pid : String) (now : Int) : SqlDB × RegisterOutcome :=
  if (db.users.filter (fun u => decide (u.email = email))).length > 0 then
    (db, .conflict)
  else
    let u : SqlUser :=
      { id := uid, email := email, password := password, name := name,
        age := age, created_at := now, updated_at := now, is_active := true }
    let p : SqlProfile :=
      { id := pid, user_id := uid, monthly_income := 0,
        financial_goals := none, spending_limit := 0,
        created_at := now, updated_at := now }
    ({ users := db.users ++ [u], user_profiles := db.user_profiles ++ [p] },
     .created uid email name age)

/-- The fallback register flow: the same route (server.js, lines
80-155) with every query dispatched through the mock pool.  `password`
stands for the bcrypt hash.  An empty recordset from the user INSERT
would crash the route into its catch-all (`internalError`). -/
def registerMock (db : MockDB) (email password name : String) (age : Option Int)
    (uid pid : String) (now : Int) : MockDB × RegisterOutcome :=
  let r1 := mockQuery db { email := some email } uid now selectUserByEmailText
  if r1.2.length > 0 then (r1.1, .conflict)
  else
    let r2 := mockQuery r1.1
      { email := some email, password := some password, name := some name, age := age }
      uid now insertUserText
    match r2.2.head? with
    | none => (r2.1, .internalError)
    | some urow =>
        let r3 := mockQuery r2.1 { user_id := urow.id } pid now insertProfileText
        (r3.1, .created (urow.id.getD "") (urow.email.getD "") (urow.name.getD "") urow.age)

/-! ## Transaction-service aggregation engine -/

/-- The window predicate shared by every summary path: the $match stage
of the live pipelines and the mock filters (Transaction.js, lines
97-105, 126-134, 155-158, 176-180) all keep the user's transactions
with `startDate <= date <= endDate` (both ends inclusive: `$gte`/`$lte`,
`>=`/`<=`). -/
def matchSum (uid : String) (s e : Int) (t : Txn) : Bool :=
  decide (t.userId = uid) && decide (s ≤ t.date) && decide (t.date ≤ e)

/-- A group-by-type output row (`_id` is the type value). -/
structure TypeSummaryRow where
  _id : String
  total : ℚ
  count : ℕ
  avgAmount : ℚ
deriving DecidableEq, Repr

/-- One step of the mock financial-summary reduce (Transaction.js,
lines 160-167): create a zero row the first time a type is seen, then
add the amount and bump the count on the row whose `_id` is `t.type`.
The accumulator is the JS object in key-insertion order. -/
def stepType (acc : List TypeSummaryRow) (t : Txn) : List TypeSummaryRow :=
  let acc1 := if acc.any (fun r => decide (r._id = t.ttype)) then acc
              else acc ++ [{ _id := t.ttype, total := 0, count := 0, avgAmount := 0 }]
  acc1.map (fun r => if r._id = t.ttype then
      { r with total := r.total + t.amount, count := r.count + 1 } else r)

/-- `getMockFinancialSummary` (Transaction.js, lines 154-174): filter
to the user's window, reduce by type, then set each row's average. -/
def getMockFinancialSummary (store : List Txn) (uid : String) (s e : Int) :
    List TypeSummaryRow :=
  let ts := store.filter (matchSum uid s e)
  let rows := ts.foldl stepType []
  rows.map (fun r => { r with avgAmount := r.total / (r.count : ℚ) })

/-- Key list of a JS object built by insertion: first-occurrence order,
no duplicates. -/
def firstSeen {κ : Type} [DecidableEq κ] (l : List κ) : List κ :=
  l.foldl (fun acc k => if k ∈ acc then acc else acc ++ [k]) []

/-- Sum of the amounts of a transaction list. -/
def sumAmounts (l : List Txn) : ℚ := (l.map (fun t => t.amount)).sum

/-- Sum of the absolute amounts of a transaction list. -/
def sumAbsAmounts (l : List Txn) : ℚ := (l.map (fun t => |t.amount|)).sum

/-- The group row for type `ty` over the matched set, without the
average (the mock reduce fills the average in afterwards). -/
def typeRowOf0 (F : List Txn) (ty : String) : TypeSummaryRow :=
  { _id := ty,
    total := sumAmounts (F.filter (fun t => decide (t.ttype = ty))),
    count := (F.filter (fun t => decide (t.ttype = ty))).length,
    avgAmount := 0 }

/-- The group row for type `ty` over the matched set: sum, count and
average of the amounts of that type. -/
def typeRowOf (F : List Txn) (ty : String) : TypeSummaryRow :=
  { _id := ty,
    total := sumAmounts (F.filter (fun t => decide (t.ttype = ty))),
    count := (F.filter (fun t => decide (t.ttype = ty))).length,
    avgAmount := sumAmounts (F.filter (fun t => decide (t.ttype = ty))) /
      (((F.filter (fun t => decide (t.ttype = ty))).length : ℚ)) }

/-- Denotation of the live `getFinancialSummary` pipeline
(Transaction.js, lines 96-116): $match to the user's window, then
$group by `$type` with `$sum`, count and `$avg`.  Mongo leaves the
group output order unspecified; the model canonicalizes it to
first-appearance order (the summary route reads the rows through
`find`, insensitive to order). -/
def liveFinancialSummary (store : List Txn) (uid : String) (s e : Int) :
    List TypeSummaryRow :=
  let F := store.filter (matchSum uid s e)
  (firstSeen (F.map (fun t => t.ttype))).map (typeRowOf F)

/-- The summary object assembled by the summary route. -/
structure SummaryOut where
  income : ℚ
  expenses : ℚ
  balance : ℚ
  total_transactions : ℕ
deriving DecidableEq, Repr

/-- The summary route's post-processing of the group rows
(transactionRoutes.js, lines 250-261): income and expense totals read
by `find` with `|| 0` defaults, the expense total taken absolute,
balance as the difference, and the counts summed with `reduce`. -/
def summaryFromRows (rows : List TypeSummaryRow) : SummaryOut :=
  let income := ((rows.find? (fun s => decide (s._id = "income"))).map
      (fun s => s.total)).getD 0
  let expenses := |((rows.find? (fun s => decide (s._id = "expense"))).map
      (fun s => s.total)).getD 0|
  { income := income, expenses := expenses, balance := income - expenses,
    total_transactions := rows.foldl (fun acc s => acc + s.count) 0 }

/-- `getSummary` in fallback mode: the route over the mock rows. -/
def getSummaryMock (store : List Txn) (uid : String) (s e : Int) : SummaryOut :=
  summaryFromRows (getMockFinancialSummary store uid s e)

/-- `getSummary` in live mode: the route over the live pipeline rows. -/
def getSummaryLive (store : List Txn) (uid : String) (s e : Int) : SummaryOut :=
  summaryFromRows (liveFinancialSummary store uid s e)

/-- A group-by-(category, type) output row (`_id` is the pair). -/
structure CatSummaryRow where
  category : String
  ctype : String
  total : ℚ
  count : ℕ
deriving DecidableEq, Repr

/-- The mock category reduce's accumulator key literal
`` `${t.category}-${t.type}` `` (Transaction.js, line 183). -/
def catKey (t : Txn) : String := t.category ++ "-" ++ t.ttype

/-- The accumulator key a stored row answers to (its `_id` pair joined
back with a dash, as the JS object key was built). -/
def catKeyOfRow (r : CatSummaryRow) : String := r.category ++ "-" ++ r.ctype

/-- One step of the mock category-summary reduce (Transaction.js,
lines 182-190). -/
def stepCat (acc : List CatSummaryRow) (t : Txn) : List CatSummaryRow :=
  let acc1 := if acc.any (fun r => decide (catKeyOfRow r = catKey t)) then acc
              else acc ++ [{ category := t.category, ctype := t.ttype,
                             total := 0, count := 0 }]
  acc1.map (fun r => if catKeyOfRow r = catKey t then
      { r with total := r.total + t.amount, count := r.count + 1 } else r)

/-- Stable insertion into a descending-sorted list: `x` goes before the
first element it is `ge` to, hence after earlier elements it ties with
— matching the stability contract of JS `Array.prototype.sort`. -/
def insertByGe {α : Type} (ge : α → α → Bool) (x : α) : List α → List α
  | [] => [x]
  | y :: ys => if ge x y then x :: y :: ys else y :: insertByGe ge x ys

/-- Stable sort placing `x` before `y` whenever `ge x y`. -/
def sortByGe {α : Type} (ge : α → α → Bool) : List α → List α
  | [] => []
  | x :: xs => insertByGe ge x (sortByGe ge xs)

/-- `getMockCategorySummary` (Transaction.js, lines 176-193): filter,
reduce by the dash-joined key, then sort by total descending
(comparator `(a, b) => b.total - a.total`, stable). -/
def getMockCategorySummary (store : List Txn) (uid : String) (s e : Int) :
    List CatSummaryRow :=
  let ts := store.filter (matchSum uid s e)
  let rows := ts.foldl stepCat []
  sortByGe (fun a b => decide (b.total ≤ a.total)) rows

/-- The group row the category pipelines produce for accumulator key
`k`: identity pair taken from the first matching transaction, totals
over all matching ones.  (Two distinct pairs whose dash-joins collide
merge into one row keyed by the first pair — exactly the JS object's
behavior.)  The `none` branch is unreachable for keys drawn from the
list. -/
def catRowOf (F : List Txn) (k : String) : CatSummaryRow :=
  match F.find? (fun t => decide (catKey t = k)) with
  | some t0 =>
      { category := t0.category, ctype := t0.ttype,
        total := sumAmounts (F.filter (fun t => decide (catKey t = k))),
        count := (F.filter (fun t => decide (catKey t = k))).length }
  | none => { category := "", ctype := "", total := 0, count := 0 }

/-- Denotation of the live `getCategorySummary` pipeline
(Transaction.js, lines 125-150): $match, $group by
`(category, type)` with `$sum` and count, $sort by total descending.
Group order is canonicalized to first appearance, ties kept stable. -/
def liveCategorySummary (store : List Txn) (uid : String) (s e : Int) :
    List CatSummaryRow :=
  let F := store.filter (matchSum uid s e)
  sortByGe (fun a b => decide (b.total ≤ a.total))
    ((firstSeen (F.map catKey)).map (catRowOf F))

/-- A categories-route output row. -/
structure CatCountRow where
  _id : String
  count : ℕ
  total_amount : ℚ
deriving DecidableEq, Repr

/-- The categories-route group row for one category: count and sum of
absolute amounts. -/
def catCountRowOf (F : List Txn) (c : String) : CatCountRow :=
  { _id := c,
    count := (F.filter (fun t => decide (t.category = c))).length,
    total_amount := sumAbsAmounts (F.filter (fun t => decide (t.category = c))) }

/-- Denotation of the live categories pipeline (transactionRoutes.js,
lines 284-304): $match, $group by `$category` with count and
`$sum: $abs(amount)`, $sort by count descending, $limit 10.  Group
order canonicalized to first appearance, ties kept stable. -/
def liveTopCategories (store : List Txn) (uid : String) (s e : Int) :
    List CatCountRow :=
  let F := store.filter (matchSum uid s e)
  (sortByGe (fun a b => decide (b.count ≤ a.count))
      ((firstSeen (F.map (fun t => t.category))).map (catCountRowOf F))).take 10

/-- `MockTransaction.aggregate` (Transaction.js, lines 277-280) ignores
its pipeline entirely and returns the empty list. -/
def mockAggregateResult : List CatCountRow := []

/-- The categories route in fallback mode: whatever the store, user and
window, it answers with `MockTransaction.aggregate`'s result. -/
def mockTopCategories (_store : List Txn) (_uid : String) (_s _e : Int) :
    List CatCountRow :=
  mockAggregateResult

/-- A stored expense transaction used by the concrete counterexamples
and witnesses. -/
def lunchStoredTxn : Txn :=
  { _id := "t1", userId := "u1", amount := -20, description := "lunch",
    category := "food", ttype := "expense", date := 5, tags := [],
    isRecurring := false, recurringPeriod := none, createdAt := 0,
    updatedAt := 0 }

/-! ## Transaction-service find and pagination -/

/-- The filter assembled by GET /user/:userId (transactionRoutes.js,
lines 82-91): `userId` from the path, the rest from optional query
parameters. -/
structure TxnFilter where
  userId : Option String := none
  category : Option String := none
  ftype : Option String := none
  dateGte : Option Int := none
  dateLte : Option Int := none
deriving DecidableEq, Repr

/-- `MockTransaction.find` (Transaction.js, lines 217-247): each
present filter key narrows the collection in turn. -/
def mockFindBase (store : List Txn) (f : TxnFilter) : List Txn :=
  let ts := store
  let ts := match f.userId with
    | some u => ts.filter (fun t => decide (t.userId = u))
    | none => ts
  let ts := match f.category with
    | some c => ts.filter (fun t => decide (t.category = c))
    | none => ts
  let ts := match f.ftype with
    | some ty => ts.filter (fun t => decide (t.ttype = ty))
    | none => ts
  let ts := match f.dateGte with
    | some s => ts.filter (fun t => decide (s ≤ t.date))
    | none => ts
  match f.dateLte with
  | some e => ts.filter (fun t => decide (t.date ≤ e))
  | none => ts

/-- Outcome of the list endpoint GET /user/:userId: a transaction page
together with its pre-pagination total, or the route's catch-all 500. -/
inductive ListEndpointResult where
  | ok (transactions : List Txn) (total : ℕ)
  | internalError
deriving DecidableEq, Repr

/-- The fallback list endpoint (transactionRoutes.js, lines 93-98):
`MockTransaction.find` is `static async` (Transaction.js, line 217),
so `Transaction.find(filter)` evaluates to a Promise; the route chains
`.sort({date:-1})` on it without awaiting first, `.sort` is not a
function of a Promise, and the thrown TypeError lands in the route's
catch, which answers 500.  The fallback list endpoint therefore errors
on every request and never returns data; the no-op
`sort`/`limit`/`skip`/`lean` stub chain (Transaction.js, lines 238-246)
is reachable only through `countDocuments`. -/
def mockListEndpoint (_store : List Txn) (_f : TxnFilter)
    (_page _limit : ℕ) : ListEndpointResult :=
  .internalError

/-- `MockTransaction.countDocuments` (Transaction.js, lines 249-252):
it awaits `this.find(filter)` and then runs the no-op
`sort().limit().skip().lean()` stub chain, so it returns the length of
the whole filtered, never-paginated list. -/
def mockCountDocuments (store : List Txn) (f : TxnFilter) : ℕ :=
  (mockFindBase store f).length

/-- The conjunction of the filter's predicates. -/
def matchesFilter (f : TxnFilter) (t : Txn) : Bool :=
  (match f.userId with | some u => decide (t.userId = u) | none => true) &&
  (match f.category with | some c => decide (t.category = c) | none => true) &&
  (match f.ftype with | some ty => decide (t.ttype = ty) | none => true) &&
  (match f.dateGte with | some s => decide (s ≤ t.date) | none => true) &&
  (match f.dateLte with | some e => decide (t.date ≤ e) | none => true)

/-- Descending-date comparison used to model `sort({date: -1})`. -/
def txnDateGe (a b : Txn) : Bool := decide (b.date ≤ a.date)

/-- Canonical (stable) date-descending sort of a transaction list;
Mongo leaves the order of equal dates unspecified. -/
def sortTxnsByDateDesc (l : List Txn) : List Txn := sortByGe txnDateGe l

/-- The live list endpoint (transactionRoutes.js, lines 93-98):
`find(filter).sort({date: -1}).limit(limit).skip((page-1)*limit)`.
Mongo applies skip before limit regardless of the call order. -/
def liveFindPaged (store : List Txn) (f : TxnFilter) (page limit : ℕ) :
    List Txn :=
  ((sortTxnsByDateDesc (store.filter (matchesFilter f))).drop
      ((page - 1) * limit)).take limit

/-- The live `countDocuments(filter)` (transactionRoutes.js, line 100):
the size of the whole filtered set, before pagination. -/
def liveCountDocuments (store : List Txn) (f : TxnFilter) : ℕ :=
  (store.filter (matchesFilter f)).length

/-- Pages 1..k of the live endpoint, concatenated, at page size `ps`. -/
def concatPages (store : List Txn) (f : TxnFilter) (ps k : ℕ) : List Txn :=
  (List.range k).flatMap (fun i => liveFindPaged store f (i + 1) ps)

/-- The live list endpoint's successful response (transactionRoutes.js,
lines 93-109): the requested page and the pre-pagination total. -/
def liveListEndpoint (store : List Txn) (f : TxnFilter) (page limit : ℕ) :
    ListEndpointResult :=
  .ok (liveFindPaged store f page limit) (liveCountDocuments store f)

/-! ## Profile completion (user-service) -/

/-- `calculateProfileCompletion` (server.js, lines 382-387):

    let completion = 30; // Cadastro básico
    if (stats.monthly_income > 0) completion += 35;
    if (stats.spending_limit > 0) completion += 35;
    return Math.min(completion, 100);
-/
def calculateProfileCompletion (monthly_income spending_limit : ℚ) : ℕ :=
  let completion := 30
  let completion := if monthly_income > 0 then completion + 35 else completion
  let completion := if spending_limit > 0 then completion + 35 else completion
  min completion 100

/-- Concrete payload for C8: `isRecurring` is true but `recurringPeriod`
is absent. -/
def recurringNoPeriodPayload : TxnPayload :=
  { userId := "u1", amount := 10, description := "gym", category := "health",
    ttype := "income", date := none, tags := none,
    isRecurring := some true, recurringPeriod := none }

/-- Concrete payload matching the spec's worked example: an expense of
50 in category food. -/
def lunchPayload : TxnPayload :=
  { userId := "u9", amount := 50, description := "lunch",
    category := "food", ttype := "expense", date := none,
    tags := none, isRecurring := none, recurringPeriod := none }

/-! ## Helper lemmas -/

lemma normalizePayload_ttype (p : TxnPayload) :
    (normalizePayload p).ttype = p.ttype := by
  unfold normalizePayload
  split_ifs <;> rfl

lemma joiValid_amount_ne {p : TxnPayload} (h : joiValid p = true) :
    p.amount ≠ 0 := by
  unfold joiValid at h
  simp only [Bool.and_eq_true, decide_eq_true_eq] at h
  exact h.1.1.1.1.1.2

lemma mem_foldlIns {κ : Type} [DecidableEq κ] (l : List κ) (acc : List κ) (x : κ) :
    x ∈ l.foldl (fun acc k => if k ∈ acc then acc else acc ++ [k]) acc ↔
      x ∈ acc ∨ x ∈ l := by
  induction l generalizing acc with
  | nil => simp
  | cons k l ih =>
      rw [List.foldl_cons, ih]
      by_cases hk : k ∈ acc
      · simp only [if_pos hk, List.mem_cons]
        constructor
        · rintro (h | h)
          exacts [Or.inl h, Or.inr (Or.inr h)]
        · rintro (h | h | h)
          exacts [Or.inl h, Or.inl (h ▸ hk), Or.inr h]
      · simp only [if_neg hk, List.mem_append, List.mem_singleton, List.mem_cons]
        tauto

lemma nodup_foldlIns {κ : Type} [DecidableEq κ] (l : List κ) (acc : List κ)
    (h : acc.Nodup) :
    (l.foldl (fun acc k => if k ∈ acc then acc else acc ++ [k]) acc).Nodup := by
  induction l generalizing acc with
  | nil => simpa
  | cons k l ih =>
      rw [List.foldl_cons]
      by_cases hk : k ∈ acc
      · rw [if_pos hk]; exact ih acc h
      · rw [if_neg hk]
        exact ih _ (by simp [List.nodup_append, h, List.disjoint_singleton, hk])

lemma mem_firstSeen {κ : Type} [DecidableEq κ] (l : List κ) (x : κ) :
    x ∈ firstSeen l ↔ x ∈ l := by
  simpa [firstSeen] using mem_foldlIns l [] x

lemma nodup_firstSeen {κ : Type} [DecidableEq κ] (l : List κ) :
    (firstSeen l).Nodup :=
  nodup_foldlIns l [] (by simp)

lemma firstSeen_append {κ : Type} [DecidableEq κ] (l : List κ) (a : κ) :
    firstSeen (l ++ [a]) =
      if a ∈ firstSeen l then firstSeen l else firstSeen l ++ [a] := by
  simp only [firstSeen, List.foldl_append, List.foldl_cons, List.foldl_nil]

lemma any_map_general {α β : Type} (l : List α) (f : α → β) (p : β → Bool) :
    (l.map f).any p = l.any (fun a => p (f a)) := by
  induction l with
  | nil => rfl
  | cons a l ih => simp [List.any_cons, ih]

lemma any_congr_mem {α : Type} (l : List α) (p q : α → Bool)
    (h : ∀ a ∈ l, p a = q a) : l.any p = l.any q := by
  induction l with
  | nil => rfl
  | cons a l ih =>
      simp only [List.any_cons, h a (List.mem_cons_self a l)]
      rw [ih (fun a ha => h a (List.mem_cons_of_mem _ ha))]

lemma any_decideEq_mem {κ : Type} [DecidableEq κ] (K : List κ) (x : κ) :
    (K.any fun k => decide (k = x)) = decide (x ∈ K) := by
  induction K with
  | nil => simp
  | cons k K ih =>
      rw [List.any_cons, ih]
      by_cases h : x ∈ K
      · simp [h]
      · by_cases hk : k = x
        · simp [h, hk, List.mem_cons, eq_comm]
        · have hxk : ¬ x = k := fun hh => hk hh.symm
          simp [h, hk, hxk, List.mem_cons]

lemma length_filter_split {α : Type} (l : List α) (p : α → Bool) :
    (l.filter p).length + (l.filter (fun a => !p a)).length = l.length := by
  induction l with
  | nil => rfl
  | cons a l ih => cases h : p a <;> simp [List.filter_cons, h] <;> omega

lemma filter_ttype_append (F : List Txn) (t : Txn) (ty : String) :
    (F ++ [t]).filter (fun x => decide (x.ttype = ty)) =
      F.filter (fun x => decide (x.ttype = ty)) ++
        if t.ttype = ty then [t] else [] := by
  rw [List.filter_append]
  congr 1
  by_cases h : t.ttype = ty <;> simp [List.filter_cons, h]

lemma typeRowOf0_append_ne (F : List Txn) (t : Txn) (ty : String)
    (h : ty ≠ t.ttype) :
    typeRowOf0 (F ++ [t]) ty = typeRowOf0 F ty := by
  unfold typeRowOf0
  rw [filter_ttype_append, if_neg (Ne.symm h)]
  simp

lemma typeRowOf0_append_self (F : List Txn) (t : Txn) :
    typeRowOf0 (F ++ [t]) t.ttype =
      { _id := t.ttype,
        total := (typeRowOf0 F t.ttype).total + t.amount,
        count := (typeRowOf0 F t.ttype).count + 1,
        avgAmount := 0 } := by
  unfold typeRowOf0
  rw [filter_ttype_append, if_pos rfl]
  simp [sumAmounts]

lemma typeRowOf0_of_not_mem (F : List Txn) (ty : String)
    (h : ty ∉ F.map (fun t => t.ttype)) :
    typeRowOf0 F ty = { _id := ty, total := 0, count := 0, avgAmount := 0 } := by
  have hnil : F.filter (fun x => decide (x.ttype = ty)) = [] := by
    rw [List.filter_eq_nil_iff]
    intro x hx
    simp only [decide_eq_true_eq]
    exact fun hh => h (List.mem_map.mpr ⟨x, hx, hh⟩)
  simp [typeRowOf0, hnil, sumAmounts]

/-- The mock financial-summary reduce computes, in first-seen order,
exactly the per-type group rows over the filtered list. -/
lemma foldl_stepType_eq (F : List Txn) :
    F.foldl stepType [] =
      (firstSeen (F.map (fun t => t.ttype))).map (typeRowOf0 F) := by
  induction F using List.reverseRecOn with
  | nil => rfl
  | append_singleton F t ih =>
      rw [List.foldl_append, List.foldl_cons, List.foldl_nil, ih,
          List.map_append, List.map_cons, List.map_nil, firstSeen_append]
      have hany : ((firstSeen (F.map (fun t => t.ttype))).map (typeRowOf0 F)).any
          (fun r => decide (r._id = t.ttype)) =
          decide (t.ttype ∈ firstSeen (F.map (fun t => t.ttype))) := by
        rw [any_map_general]
        exact any_decideEq_mem _ _
      by_cases hmem : t.ttype ∈ firstSeen (F.map (fun t => t.ttype))
      · have hanyT : ((firstSeen (F.map (fun t => t.ttype))).map (typeRowOf0 F)).any
            (fun r => decide (r._id = t.ttype)) = true := by
          rw [hany]; exact decide_eq_true hmem
        rw [if_pos hmem]
        simp only [stepType, hanyT, eq_self_iff_true, if_true, List.map_map]
        apply List.map_congr_left
        intro k hk
        by_cases hkt : k = t.ttype
        · subst hkt
          simp [typeRowOf0_append_self, typeRowOf0, Function.comp, sumAmounts,
                List.map_append, List.sum_append, filter_ttype_append]
        · simp only [Function.comp_apply]
          rw [typeRowOf0_append_ne F t k hkt]
          simp [typeRowOf0, hkt]
      · have hanyF : ((firstSeen (F.map (fun t => t.ttype))).map (typeRowOf0 F)).any
            (fun r => decide (r._id = t.ttype)) = false := by
          rw [hany]; exact decide_eq_false hmem
        rw [if_neg hmem]
        simp only [stepType, hanyF, Bool.false_eq_true, if_false,
                   List.map_append, List.map_map, List.map_cons, List.map_nil]
        rw [mem_firstSeen] at hmem
        congr 1
        · apply List.map_congr_left
          intro k hk
          have hkt : k ≠ t.ttype := by
            intro hh
            exact hmem (hh ▸ (mem_firstSeen _ _).mp hk)
          simp only [Function.comp_apply]
          rw [typeRowOf0_append_ne F t k hkt]
          simp [typeRowOf0, hkt]
        · rw [typeRowOf0_append_self, typeRowOf0_of_not_mem F t.ttype hmem]
          simp

/-- Filling in the averages turns the zero-average group rows into the
live pipeline's rows. -/
lemma getMockFinancialSummary_eq_live (store : List Txn) (uid : String)
    (s e : Int) :
    getMockFinancialSummary store uid s e = liveFinancialSummary store uid s e := by
  simp only [getMockFinancialSummary, liveFinancialSummary]
  rw [foldl_stepType_eq, List.map_map]
  apply List.map_congr_left
  intro k hk
  simp [typeRowOf0, typeRowOf, Function.comp]

lemma find?_typeRows (K : List String) (F : List Txn) (ty : String) :
    (K.map (typeRowOf F)).find? (fun s => decide (s._id = ty)) =
      if ty ∈ K then some (typeRowOf F ty) else none := by
  induction K with
  | nil => rfl
  | cons k K ih =>
      by_cases h : k = ty
      · subst h
        rw [List.map_cons, List.find?_cons_of_pos _ (by simp [typeRowOf])]
        simp
      · rw [List.map_cons, List.find?_cons_of_neg _ (by simp [typeRowOf, h]), ih]
        by_cases hm : ty ∈ K
        · simp [hm, List.mem_cons]
        · have hk : ¬ ty = k := fun hh => h hh.symm
          simp [hm, List.mem_cons, hk]

lemma typeRow_total_getD (F : List Txn) (ty : String) :
    ((((firstSeen (F.map (fun t => t.ttype))).map (typeRowOf F)).find?
        (fun s => decide (s._id = ty))).map (fun s => s.total)).getD 0 =
      sumAmounts (F.filter (fun t => decide (t.ttype = ty))) := by
  rw [find?_typeRows]
  by_cases h : ty ∈ firstSeen (F.map (fun t => t.ttype))
  · simp [h, typeRowOf]
  · have h' : ty ∉ F.map (fun t => t.ttype) :=
      fun hh => h ((mem_firstSeen _ _).mpr hh)
    have hnil : F.filter (fun t => decide (t.ttype = ty)) = [] := by
      rw [List.filter_eq_nil_iff]
      intro x hx
      simp only [decide_eq_true_eq]
      exact fun hh => h' (List.mem_map.mpr ⟨x, hx, hh⟩)
    simp [h, hnil, sumAmounts]

lemma foldl_add_count (rows : List TypeSummaryRow) (n : ℕ) :
    rows.foldl (fun acc s => acc + s.count) n =
      n + (rows.map (fun s => s.count)).sum := by
  induction rows generalizing n with
  | nil => simp
  | cons r rows ih => simp [List.foldl_cons, ih, Nat.add_assoc]

lemma sum_counts_partition (K : List String) (F : List Txn)
    (hnd : K.Nodup) (hcov : ∀ t ∈ F, t.ttype ∈ K) :
    (K.map (fun ty => (F.filter (fun t => decide (t.ttype = ty))).length)).sum
      = F.length := by
  induction K generalizing F with
  | nil =>
      have hF : F = [] := List.eq_nil_iff_forall_not_mem.mpr
        (fun t ht => absurd (hcov t ht) (List.not_mem_nil _))
      simp [hF]
  | cons k K ih =>
      rw [List.nodup_cons] at hnd
      rw [List.map_cons, List.sum_cons]
      have hmap : K.map (fun ty => (F.filter (fun t => decide (t.ttype = ty))).length)
          = K.map (fun ty => ((F.filter (fun t => !decide (t.ttype = k))).filter
              (fun t => decide (t.ttype = ty))).length) := by
        apply List.map_congr_left
        intro ty hty
        rw [List.filter_filter]
        congr 1
        apply List.filter_congr
        intro t ht
        by_cases h : t.ttype = ty
        · have hek : ¬ ty = k := fun hh => hnd.1 (by rw [← hh]; exact hty)
          simp [h, hek]
        · simp [h]
      rw [hmap, ih _ hnd.2 ?_]
      · exact length_filter_split F _
      · intro t ht
        rw [List.mem_filter] at ht
        rcases ht with ⟨htF, htne⟩
        rcases List.mem_cons.mp (hcov t htF) with h | h
        · exfalso; simp [h] at htne
        · exact h

lemma summary_total_count (F : List Txn) :
    ((firstSeen (F.map (fun t => t.ttype))).map (typeRowOf F)).foldl
        (fun acc s => acc + s.count) 0 = F.length := by
  rw [foldl_add_count, List.map_map, Nat.zero_add]
  exact sum_counts_partition _ F (nodup_firstSeen _)
    (fun t ht => (mem_firstSeen _ _).mpr (List.mem_map_of_mem _ ht))

lemma getSummaryLive_income (store : List Txn) (uid : String) (s e : Int) :
    (getSummaryLive store uid s e).income =
      sumAmounts ((store.filter (matchSum uid s e)).filter
        (fun t => decide (t.ttype = "income"))) := by
  simp only [getSummaryLive, liveFinancialSummary, summaryFromRows]
  exact typeRow_total_getD _ "income"

lemma getSummaryLive_expenses (store : List Txn) (uid : String) (s e : Int) :
    (getSummaryLive store uid s e).expenses =
      |sumAmounts ((store.filter (matchSum uid s e)).filter
        (fun t => decide (t.ttype = "expense")))| := by
  simp only [getSummaryLive, liveFinancialSummary, summaryFromRows]
  exact congrArg abs (typeRow_total_getD _ "expense")

lemma getSummaryLive_balance (store : List Txn) (uid : String) (s e : Int) :
    (getSummaryLive store uid s e).balance =
      (getSummaryLive store uid s e).income -
        (getSummaryLive store uid s e).expenses := rfl

lemma getSummaryLive_total (store : List Txn) (uid : String) (s e : Int) :
    (getSummaryLive store uid s e).total_transactions =
      (store.filter (matchSum uid s e)).length := by
  simp only [getSummaryLive, liveFinancialSummary, summaryFromRows]
  exact summary_total_count _

lemma getSummaryMock_eq_live (store : List Txn) (uid : String) (s e : Int) :
    getSummaryMock store uid s e = getSummaryLive store uid s e :=
  congrArg summaryFromRows (getMockFinancialSummary_eq_live store uid s e)

lemma filter_catKey_append (F : List Txn) (t : Txn) (k : String) :
    (F ++ [t]).filter (fun x => decide (catKey x = k)) =
      F.filter (fun x => decide (catKey x = k)) ++
        if catKey t = k then [t] else [] := by
  rw [List.filter_append]
  congr 1
  by_cases h : catKey t = k <;> simp [List.filter_cons, h]

lemma catKeyOfRow_catRowOf (F : List Txn) (k : String)
    (hk : k ∈ F.map catKey) : catKeyOfRow (catRowOf F k) = k := by
  obtain ⟨t0, ht0, hk0⟩ := List.mem_map.mp hk
  cases hfind : F.find? (fun x => decide (catKey x = k)) with
  | none =>
      exfalso
      have := List.find?_eq_none.mp hfind t0 ht0
      simp [hk0] at this
  | some t1 =>
      have h1 := List.find?_some hfind
      simp only [decide_eq_true_eq] at h1
      simp only [catRowOf, hfind, catKeyOfRow]
      exact h1

lemma catRowOf_append_ne (F : List Txn) (t : Txn) (k : String)
    (hne : catKey t ≠ k) :
    catRowOf (F ++ [t]) k = catRowOf F k := by
  have hfind : (F ++ [t]).find? (fun x => decide (catKey x = k)) =
      F.find? (fun x => decide (catKey x = k)) := by
    rw [List.find?_append]
    have hsing : [t].find? (fun x => decide (catKey x = k)) = none := by
      rw [List.find?_eq_none]
      intro x hx
      rw [List.mem_singleton] at hx
      subst hx
      simp [hne]
    rw [hsing, Option.or_none]
  have hfil := filter_catKey_append F t k
  rw [if_neg hne, List.append_nil] at hfil
  unfold catRowOf
  rw [hfind, hfil]

lemma catRowOf_append_self_mem (F : List Txn) (t : Txn)
    (hk : catKey t ∈ F.map catKey) :
    catRowOf (F ++ [t]) (catKey t) =
      { catRowOf F (catKey t) with
        total := (catRowOf F (catKey t)).total + t.amount,
        count := (catRowOf F (catKey t)).count + 1 } := by
  obtain ⟨t0, ht0, hk0⟩ := List.mem_map.mp hk
  cases hfind : F.find? (fun x => decide (catKey x = catKey t)) with
  | none =>
      exfalso
      have := List.find?_eq_none.mp hfind t0 ht0
      simp [hk0] at this
  | some t1 =>
      have hfind2 : (F ++ [t]).find? (fun x => decide (catKey x = catKey t)) =
          some t1 := by
        rw [List.find?_append, hfind]
        rfl
      have hfil := filter_catKey_append F t (catKey t)
      rw [if_pos rfl] at hfil
      unfold catRowOf
      rw [hfind, hfind2, hfil]
      simp [sumAmounts, List.map_append, List.sum_append]

lemma catRowOf_single_new (F : List Txn) (t : Txn)
    (hk : catKey t ∉ F.map catKey) :
    catRowOf (F ++ [t]) (catKey t) =
      { category := t.category, ctype := t.ttype,
        total := t.amount, count := 1 } := by
  have hfindF : F.find? (fun x => decide (catKey x = catKey t)) = none := by
    rw [List.find?_eq_none]
    intro x hx
    simp only [decide_eq_true_eq]
    exact fun hh => hk (List.mem_map.mpr ⟨x, hx, hh⟩)
  have hfilF : F.filter (fun x => decide (catKey x = catKey t)) = [] := by
    rw [List.filter_eq_nil_iff]
    intro x hx
    simp only [decide_eq_true_eq]
    exact fun hh => hk (List.mem_map.mpr ⟨x, hx, hh⟩)
  have hfind2 : (F ++ [t]).find? (fun x => decide (catKey x = catKey t)) =
      some t := by
    rw [List.find?_append, hfindF]
    simp
  have hfil := filter_catKey_append F t (catKey t)
  rw [if_pos rfl, hfilF] at hfil
  unfold catRowOf
  rw [hfind2, hfil]
  simp [sumAmounts]

/-- The mock category reduce computes, in first-seen key order, exactly
the per-key group rows over the filtered list. -/
lemma foldl_stepCat_eq (F : List Txn) :
    F.foldl stepCat [] = (firstSeen (F.map catKey)).map (catRowOf F) := by
  induction F using List.reverseRecOn with
  | nil => rfl
  | append_singleton F t ih =>
      rw [List.foldl_append, List.foldl_cons, List.foldl_nil, ih,
          List.map_append, List.map_cons, List.map_nil, firstSeen_append]
      have hkeys : ∀ k ∈ firstSeen (F.map catKey),
          catKeyOfRow (catRowOf F k) = k :=
        fun k hk => catKeyOfRow_catRowOf F k ((mem_firstSeen _ _).mp hk)
      have hany : ((firstSeen (F.map catKey)).map (catRowOf F)).any
          (fun r => decide (catKeyOfRow r = catKey t)) =
          decide (catKey t ∈ firstSeen (F.map catKey)) := by
        rw [any_map_general,
            any_congr_mem _ _ (fun k => decide (k = catKey t))
              (fun k hk => by rw [hkeys k hk])]
        exact any_decideEq_mem _ _
      by_cases hmem : catKey t ∈ firstSeen (F.map catKey)
      · have hanyT : ((firstSeen (F.map catKey)).map (catRowOf F)).any
            (fun r => decide (catKeyOfRow r = catKey t)) = true := by
          rw [hany]; exact decide_eq_true hmem
        rw [if_pos hmem]
        simp only [stepCat, hanyT, eq_self_iff_true, if_true, List.map_map]
        apply List.map_congr_left
        intro k hk
        simp only [Function.comp_apply]
        by_cases hkt : k = catKey t
        · subst hkt
          rw [catRowOf_append_self_mem F t ((mem_firstSeen _ _).mp hk)]
          rw [if_pos (hkeys _ hk)]
        · have hne : catKey t ≠ k := fun hh => hkt hh.symm
          rw [catRowOf_append_ne F t k hne]
          rw [if_neg (by rw [hkeys k hk]; exact hkt)]
      · have hanyF : ((firstSeen (F.map catKey)).map (catRowOf F)).any
            (fun r => decide (catKeyOfRow r = catKey t)) = false := by
          rw [hany]; exact decide_eq_false hmem
        rw [if_neg hmem]
        simp only [stepCat, hanyF, Bool.false_eq_true, if_false,
                   List.map_append, List.map_map, List.map_cons, List.map_nil]
        congr 1
        · apply List.map_congr_left
          intro k hk
          have hkt : k ≠ catKey t := fun hh => hmem (hh ▸ hk)
          simp only [Function.comp_apply]
          rw [catRowOf_append_ne F t k (fun hh => hkt hh.symm)]
          rw [if_neg (by rw [hkeys k hk]; exact hkt)]
        · have hknm : catKey t ∉ F.map catKey :=
            fun hh => hmem ((mem_firstSeen _ _).mpr hh)
          rw [catRowOf_single_new F t hknm]
          simp [catKeyOfRow, catKey]

lemma getMockCategorySummary_eq_live (store : List Txn) (uid : String)
    (s e : Int) :
    getMockCategorySummary store uid s e = liveCategorySummary store uid s e := by
  simp only [getMockCategorySummary, liveCategorySummary]
  rw [foldl_stepCat_eq]

lemma length_insertByGe {α : Type} (ge : α → α → Bool) (x : α) (l : List α) :
    (insertByGe ge x l).length = l.length + 1 := by
  induction l with
  | nil => rfl
  | cons y ys ih => by_cases h : ge x y <;> simp [insertByGe, h, ih]

lemma length_sortByGe {α : Type} (ge : α → α → Bool) (l : List α) :
    (sortByGe ge l).length = l.length := by
  induction l with
  | nil => rfl
  | cons x xs ih => simp [sortByGe, length_insertByGe, ih]

lemma mockFindBase_eq (store : List Txn) (f : TxnFilter) :
    mockFindBase store f = store.filter (matchesFilter f) := by
  show mockFindBase store f = store.filter (fun t => matchesFilter f t)
  rcases f with ⟨fu, fc, ft, fs, fe⟩
  cases fu <;> cases fc <;> cases ft <;> cases fs <;> cases fe <;>
    simp [mockFindBase, matchesFilter, List.filter_filter,
          Bool.and_comm, Bool.and_left_comm, Bool.and_assoc]

lemma flatMap_pages_take {α : Type} (l : List α) (ps k : ℕ) :
    (List.range k).flatMap (fun i => (l.drop (i * ps)).take ps) =
      l.take (k * ps) := by
  induction k with
  | zero => simp
  | succ k ih =>
      rw [List.range_succ, List.flatMap_append, ih]
      simp only [List.flatMap_cons, List.flatMap_nil, List.append_nil]
      rw [← List.take_add]
      congr 1
      ring

/-- Dispatch of the duplicate-email check: its text contains `SELECT`,
`users` and `email`, so the first branch answers it. -/
lemma mockQuery_selectByEmail (db : MockDB) (inp : MockInputs) (fresh : String)
    (now : Int) :
    mockQuery db inp fresh now selectUserByEmailText =
      (db, match db.users.find? (fun u => decide (u.email = inp.email)) with
           | some u => [userToRs u]
           | none => []) := rfl

/-- Dispatch of the profile lookup: its text ALSO contains `SELECT`,
`users` and `email` (through `u.email` in the select list), so the
email-lookup branch shadows the join branch. -/
lemma mockQuery_profileSelect (db : MockDB) (inp : MockInputs) (fresh : String)
    (now : Int) :
    mockQuery db inp fresh now profileSelectText =
      (db, match db.users.find? (fun u => decide (u.email = inp.email)) with
           | some u => [userToRs u]
           | none => []) := rfl

/-- Dispatch of the register route's user insert. -/
lemma mockQuery_insertUser (db : MockDB) (inp : MockInputs) (fresh : String)
    (now : Int) :
    mockQuery db inp fresh now insertUserText =
      ({ db with users := db.users ++
          [{ id := fresh, email := inp.email, password := inp.password,
             name := inp.name, age := inp.age, created_at := now,
             is_active := true }] },
       [userToRs { id := fresh, email := inp.email, password := inp.password,
                   name := inp.name, age := inp.age, created_at := now,
                   is_active := true }]) := rfl

/-- Dispatch of the register route's profile insert. -/
lemma mockQuery_insertProfile (db : MockDB) (inp : MockInputs) (fresh : String)
    (now : Int) :
    mockQuery db inp fresh now insertProfileText =
      ({ db with user_profiles := db.user_profiles ++
          [{ id := fresh, user_id := inp.user_id,
             monthly_income := inp.monthly_income.getD 0,
             spending_limit := inp.spending_limit.getD 0 }] },
       [profileToRs { id := fresh, user_id := inp.user_id,
                      monthly_income := inp.monthly_income.getD 0,
                      spending_limit := inp.spending_limit.getD 0 }]) := rfl

/-- The users UPDATE matches none of the four mock branches: it is a
no-op returning an empty recordset. -/
lemma mockQuery_updateUsers (db : MockDB) (inp : MockInputs) (fresh : String)
    (now : Int) :
    mockQuery db inp fresh now updateUsersText = (db, []) := rfl

/-- The user_profiles UPDATE matches none of the four mock branches:
it is a no-op returning an empty recordset. -/
lemma mockQuery_updateProfiles (db : MockDB) (inp : MockInputs) (fresh : String)
    (now : Int) :
    mockQuery db inp fresh now updateProfilesText = (db, []) := rfl

/-! ## Claim theorems -/

/-- Claim C10: the amount-sign normalization applied before persistence
is idempotent — applying it twice yields the same payload (same amount
and type) as applying it once. -/
theorem claim_C10_normalize_idempotent (p : TxnPayload) :
    normalizePayload (normalizePayload p) = normalizePayload p := by
  rcases p with ⟨u, a, d, c, ty, dt, tg, ir, rp⟩
  by_cases h1 : ty = "expense" ∧ a > 0
  · have hinner : normalizePayload ⟨u, a, d, c, ty, dt, tg, ir, rp⟩ =
        ⟨u, -|a|, d, c, ty, dt, tg, ir, rp⟩ := by
      simp [normalizePayload, h1]
    rw [hinner]
    have hpos : ¬ (-|a| > 0) := by
      have := abs_nonneg a
      linarith
    simp [normalizePayload, h1.1, hpos]
  · by_cases h2 : ty = "income" ∧ a < 0
    · have hinner : normalizePayload ⟨u, a, d, c, ty, dt, tg, ir, rp⟩ =
          ⟨u, |a|, d, c, ty, dt, tg, ir, rp⟩ := by
        simp [normalizePayload, h1, h2]
      rw [hinner]
      have habs : ¬ (|a| < 0) := by
        have := abs_nonneg a
        linarith
      simp [normalizePayload, h2.1, habs]
    · have hinner : normalizePayload ⟨u, a, d, c, ty, dt, tg, ir, rp⟩ =
          ⟨u, a, d, c, ty, dt, tg, ir, rp⟩ := by
        simp [normalizePayload, h1, h2]
      rw [hinner, hinner]

/-- Claim C2: every payload accepted by the Joi validation satisfies,
after normalization, `type = income → amount > 0` and
`type = expense → amount < 0`; and the stored record (mock constructor
in fallback mode, mongoose document in live mode) carries exactly the
normalized amount and type. -/
theorem claim_C2_sign_invariant (p : TxnPayload) (h : joiValid p = true) :
    ((normalizePayload p).ttype = "income" → 0 < (normalizePayload p).amount) ∧
    ((normalizePayload p).ttype = "expense" → (normalizePayload p).amount < 0) ∧
    (∀ fid now,
      (mkMockTransaction fid now (normalizePayload p)).amount =
          (normalizePayload p).amount ∧
      (mkMockTransaction fid now (normalizePayload p)).ttype =
          (normalizePayload p).ttype ∧
      (mkLiveTransaction fid now (normalizePayload p)).amount =
          (normalizePayload p).amount ∧
      (mkLiveTransaction fid now (normalizePayload p)).ttype =
          (normalizePayload p).ttype) := by
  have hne : p.amount ≠ 0 := joiValid_amount_ne h
  refine ⟨?_, ?_, fun fid now => ⟨rfl, rfl, rfl, rfl⟩⟩
  · intro hty
    rw [normalizePayload_ttype] at hty
    have hnexp : ¬ (p.ttype = "expense" ∧ p.amount > 0) := by
      rintro ⟨he, -⟩
      rw [hty] at he
      exact absurd he (by decide)
    by_cases hneg : p.amount < 0
    · have : normalizePayload p = { p with amount := |p.amount| } := by
        simp [normalizePayload, hnexp, hty, hneg]
      rw [this]
      simpa using abs_pos.mpr hne
    · have : normalizePayload p = p := by
        simp [normalizePayload, hnexp, hneg]
      rw [this]
      exact lt_of_le_of_ne (not_lt.mp hneg) (Ne.symm hne)
  · intro hty
    rw [normalizePayload_ttype] at hty
    by_cases hpos : p.amount > 0
    · have : normalizePayload p = { p with amount := -|p.amount| } := by
        simp [normalizePayload, hty, hpos]
      rw [this]
      have := abs_pos.mpr hne
      simpa using by linarith
    · have hninc : ¬ (p.ttype = "income" ∧ p.amount < 0) := by
        rintro ⟨he, -⟩
        rw [hty] at he
        exact absurd he (by decide)
      have : normalizePayload p = p := by
        simp [normalizePayload, hpos, hninc]
      rw [this]
      exact lt_of_le_of_ne (not_lt.mp hpos) hne

/-- Witness for C2, at the spec's own example: an expense supplied with
amount 50 is stored with a negative amount. -/
theorem claim_C2_witness :
    joiValid lunchPayload = true ∧
    (normalizePayload lunchPayload).ttype = "expense" ∧
    (normalizePayload lunchPayload).amount < 0 :=
  ⟨by decide, by decide,
   (claim_C2_sign_invariant lunchPayload (by decide)).2.1 (by decide)⟩

/-- Claim C9: `calculateProfileCompletion` equals the clamped score
30 (+35 if monthly income positive) (+35 if spending limit positive),
always lies in [30, 100] ⊆ [0, 100], and returns 65 on a profile with
monthly income 0 and spending limit 500. -/
theorem claim_C9_profile_completion :
    (∀ mi sl : ℚ,
      calculateProfileCompletion mi sl =
        min (30 + (if mi > 0 then 35 else 0) + (if sl > 0 then 35 else 0)) 100 ∧
      30 ≤ calculateProfileCompletion mi sl ∧
      calculateProfileCompletion mi sl ≤ 100) ∧
    calculateProfileCompletion 0 500 = 65 := by
  constructor
  · intro mi sl
    unfold calculateProfileCompletion
    split_ifs <;> norm_num
  · decide

/-- Claim C8 (evaluation at the failing input): a create/update payload
with `isRecurring = true` and no `recurringPeriod` passes the route's
Joi validation, and the fallback store saves it with
`recurringPeriod` absent; only the mongoose schema's conditional
`required` check (live mode, at save time) rejects it. -/
theorem claim_C8_recurring_not_validated :
    joiValid recurringNoPeriodPayload = true ∧
    (mkMockTransaction "t1" 0 (normalizePayload recurringNoPeriodPayload)).isRecurring
        = true ∧
    (mkMockTransaction "t1" 0 (normalizePayload recurringNoPeriodPayload)).recurringPeriod
        = none ∧
    mongooseRecurringOk
        (mkMockTransaction "t1" 0 (normalizePayload recurringNoPeriodPayload)) = false := by
  refine ⟨by decide, ?_, ?_, ?_⟩ <;> decide

/-- Claim C3: for every user and dataset, the summary route returns
income = the sum of income amounts in the window, expenses = the
absolute value of the sum of expense amounts in the window,
balance = income − expenses, and transactionCount = the number of all
matching transactions; an absent type contributes 0 (the `|| 0`
defaults), with no error — in fallback mode and in live mode. -/
theorem claim_C3_summary_correct (store : List Txn) (uid : String) (s e : Int) :
    (getSummaryMock store uid s e).income =
      sumAmounts ((store.filter (matchSum uid s e)).filter
        (fun t => decide (t.ttype = "income"))) ∧
    (getSummaryMock store uid s e).expenses =
      |sumAmounts ((store.filter (matchSum uid s e)).filter
        (fun t => decide (t.ttype = "expense")))| ∧
    (getSummaryMock store uid s e).balance =
      (getSummaryMock store uid s e).income -
        (getSummaryMock store uid s e).expenses ∧
    (getSummaryMock store uid s e).total_transactions =
      (store.filter (matchSum uid s e)).length ∧
    (getSummaryLive store uid s e).income =
      sumAmounts ((store.filter (matchSum uid s e)).filter
        (fun t => decide (t.ttype = "income"))) ∧
    (getSummaryLive store uid s e).expenses =
      |sumAmounts ((store.filter (matchSum uid s e)).filter
        (fun t => decide (t.ttype = "expense")))| ∧
    (getSummaryLive store uid s e).balance =
      (getSummaryLive store uid s e).income -
        (getSummaryLive store uid s e).expenses ∧
    (getSummaryLive store uid s e).total_transactions =
      (store.filter (matchSum uid s e)).length := by
  refine ⟨?_, ?_, ?_, ?_, getSummaryLive_income store uid s e,
          getSummaryLive_expenses store uid s e,
          getSummaryLive_balance store uid s e,
          getSummaryLive_total store uid s e⟩
  · rw [getSummaryMock_eq_live]; exact getSummaryLive_income store uid s e
  · rw [getSummaryMock_eq_live]; exact getSummaryLive_expenses store uid s e
  · rw [getSummaryMock_eq_live]; exact getSummaryLive_balance store uid s e
  · rw [getSummaryMock_eq_live]; exact getSummaryLive_total store uid s e

/-- Claim C1 (amended): for every dataset, the summary route's figures
and the category-type grouping are numerically identical between live
and fallback modes, but the categories route (`getTopCategories`) in
fallback mode returns `MockTransaction.aggregate`'s empty list for
every dataset, so equivalence fails there. -/
theorem claim_C1_mode_equivalence :
    (∀ (store : List Txn) (uid : String) (s e : Int),
      getSummaryMock store uid s e = getSummaryLive store uid s e) ∧
    (∀ (store : List Txn) (uid : String) (s e : Int),
      getMockCategorySummary store uid s e = liveCategorySummary store uid s e) ∧
    (∀ (store : List Txn) (uid : String) (s e : Int),
      mockTopCategories store uid s e = ([] : List CatCountRow)) :=
  ⟨getSummaryMock_eq_live, getMockCategorySummary_eq_live, fun _ _ _ _ => rfl⟩

/-- Counterexample for C1: on a dataset with one matching transaction,
the live categories pipeline returns one group row while the fallback
categories route returns the empty list — the outputs differ. -/
theorem claim_C1_counterexample :
    mockTopCategories [lunchStoredTxn] "u1" 0 10 = [] ∧
    (liveTopCategories [lunchStoredTxn] "u1" 0 10).length = 1 ∧
    liveTopCategories [lunchStoredTxn] "u1" 0 10 ≠
      mockTopCategories [lunchStoredTxn] "u1" 0 10 := by
  refine ⟨rfl, rfl, ?_⟩
  intro h
  have h1 : (liveTopCategories [lunchStoredTxn] "u1" 0 10).length = 1 := rfl
  rw [h] at h1
  exact absurd h1 (by decide)

/-- Claim C4 (amended): the filter predicates are conjunctive
(`MockTransaction.find` narrows by each present key) and
`countDocuments` returns the size of the whole filtered set before any
pagination, in both modes; in live mode pagination is offset-based over
the date-descending sorted filtered set (`skip = (page-1)*pageSize`),
and concatenating all pages at a fixed positive page size reproduces
the full sorted filtered set exactly once; but the fallback list
endpoint chains `.sort` on the un-awaited Promise of the async mock
find, so it throws and answers 500 on every request instead of
returning pages. -/
theorem claim_C4_pagination :
    (∀ (store : List Txn) (f : TxnFilter) (page limit : ℕ),
      mockListEndpoint store f page limit = .internalError) ∧
    (∀ (store : List Txn) (f : TxnFilter),
      mockFindBase store f = store.filter (matchesFilter f)) ∧
    (∀ (store : List Txn) (f : TxnFilter),
      mockCountDocuments store f = (store.filter (matchesFilter f)).length) ∧
    (∀ (store : List Txn) (f : TxnFilter),
      liveCountDocuments store f = (store.filter (matchesFilter f)).length) ∧
    (∀ (store : List Txn) (f : TxnFilter) (page limit : ℕ),
      liveFindPaged store f page limit =
        ((sortTxnsByDateDesc (store.filter (matchesFilter f))).drop
          ((page - 1) * limit)).take limit) ∧
    (∀ (store : List Txn) (f : TxnFilter) (ps k : ℕ), 0 < ps →
      (store.filter (matchesFilter f)).length ≤ k * ps →
      concatPages store f ps k =
        sortTxnsByDateDesc (store.filter (matchesFilter f))) := by
  refine ⟨fun store f page limit => rfl, ?_, ?_, fun store f => rfl,
          fun store f page limit => rfl, ?_⟩
  · intro store f
    exact mockFindBase_eq store f
  · intro store f
    simp only [mockCountDocuments, mockFindBase_eq]
  · intro store f ps k hps hlen
    simp only [concatPages, liveFindPaged, Nat.add_sub_cancel]
    rw [flatMap_pages_take]
    apply List.take_of_length_le
    simp only [sortTxnsByDateDesc, length_sortByGe]
    exact hlen

/-- Concrete two-transaction store for the C4 witness and
counterexample. -/
def wStore : List Txn :=
  [{ _id := "w1", userId := "u1", amount := 10, description := "a",
     category := "food", ttype := "income", date := 1, tags := [],
     isRecurring := false, recurringPeriod := none, createdAt := 0,
     updatedAt := 0 },
   { _id := "w2", userId := "u1", amount := 20, description := "b",
     category := "food", ttype := "income", date := 2, tags := [],
     isRecurring := false, recurringPeriod := none, createdAt := 0,
     updatedAt := 0 }]

/-- Filter by user only, as the list route builds with no query
parameters. -/
def wFilter : TxnFilter := { userId := some "u1" }

/-- Witness for C4: with page size 1, two live pages reproduce the
whole sorted filtered two-element set. -/
theorem claim_C4_witness :
    0 < 1 ∧ (wStore.filter (matchesFilter wFilter)).length ≤ 2 * 1 ∧
    concatPages wStore wFilter 1 2 =
      sortTxnsByDateDesc (wStore.filter (matchesFilter wFilter)) :=
  ⟨Nat.one_pos, by decide,
   claim_C4_pagination.2.2.2.2.2 wStore wFilter 1 2 Nat.one_pos (by decide)⟩

/-- Counterexample for C4: on a two-transaction store at page size 1,
the fallback list endpoint answers the catch-all 500 (the route chains
`.sort` on the un-awaited Promise of the async mock find) while the
live endpoint returns a one-element page with total 2 — so the fallback
find operation neither paginates nor returns the filtered set at
all. -/
theorem claim_C4_counterexample :
    mockListEndpoint wStore wFilter 1 1 = .internalError ∧
    liveListEndpoint wStore wFilter 1 1 =
      .ok [{ _id := "w2", userId := "u1", amount := 20, description := "b",
             category := "food", ttype := "income", date := 2, tags := [],
             isRecurring := false, recurringPeriod := none, createdAt := 0,
             updatedAt := 0 }] 2 ∧
    mockListEndpoint wStore wFilter 1 1 ≠ liveListEndpoint wStore wFilter 1 1 :=
  ⟨rfl, by decide, by decide⟩

/-- Claim C7: registering with an email that already exists yields a
conflict and leaves the store unchanged; a fresh email succeeds and
appends exactly the new user — in both the fallback (mock pool) and
live paths. -/
theorem claim_C7_email_uniqueness :
    (∀ (db : MockDB) email pw nm age uid pid now,
      (∃ u ∈ db.users, u.email = some email) →
      registerMock db email pw nm age uid pid now = (db, .conflict)) ∧
    (∀ (db : MockDB) email pw nm age uid pid now,
      (¬ ∃ u ∈ db.users, u.email = some email) →
      (registerMock db email pw nm age uid pid now).2 =
          .created uid email nm age ∧
      (registerMock db email pw nm age uid pid now).1.users =
        db.users ++
          [{ id := uid, email := some email, password := some pw,
             name := some nm, age := age, created_at := now,
             is_active := true }]) ∧
    (∀ (db : SqlDB) email pw nm age uid pid now,
      (∃ u ∈ db.users, u.email = email) →
      registerLive db email pw nm age uid pid now = (db, .conflict)) ∧
    (∀ (db : SqlDB) email pw nm age uid pid now,
      (¬ ∃ u ∈ db.users, u.email = email) →
      (registerLive db email pw nm age uid pid now).2 =
          .created uid email nm age ∧
      (registerLive db email pw nm age uid pid now).1.users =
        db.users ++
          [{ id := uid, email := email, password := pw, name := nm,
             age := age, created_at := now, updated_at := now,
             is_active := true }]) := by
  refine ⟨?_, ?_, ?_, ?_⟩
  · intro db email pw nm age uid pid now h
    obtain ⟨u, hu, he⟩ := h
    cases hfind : db.users.find? (fun u => decide (u.email = some email)) with
    | none =>
        exact absurd (by simpa using List.find?_eq_none.mp hfind u hu) (by simp [he])
    | some u' =>
        simp [registerMock, mockQuery_selectByEmail, hfind]
  · intro db email pw nm age uid pid now h
    have hfind : db.users.find? (fun u => decide (u.email = some email)) = none := by
      rw [List.find?_eq_none]
      intro x hx
      simp only [decide_eq_true_eq]
      exact fun hex => h ⟨x, hx, hex⟩
    constructor <;>
      simp [registerMock, mockQuery_selectByEmail, hfind, mockQuery_insertUser,
            mockQuery_insertProfile, userToRs]
  · intro db email pw nm age uid pid now h
    obtain ⟨u, hu, he⟩ := h
    have : (db.users.filter (fun u => decide (u.email = email))).length > 0 := by
      have : u ∈ db.users.filter (fun u => decide (u.email = email)) := by
        simp [List.mem_filter, hu, he]
      exact List.length_pos.mpr (List.ne_nil_of_mem this)
    simp [registerLive, this]
  · intro db email pw nm age uid pid now h
    have hfil : db.users.filter (fun u => decide (u.email = email)) = [] := by
      rw [List.filter_eq_nil_iff]
      intro x hx
      simp only [decide_eq_true_eq]
      exact fun hex => h ⟨x, hx, hex⟩
    constructor <;> simp [registerLive, hfil]

/-- Witness for C7: in a one-user store, re-registering the same email
conflicts and leaves the store unchanged. -/
theorem claim_C7_witness :
    ((MockDB.mk
        [{ id := "u1", email := some "a@x.io", password := some "h",
           name := some "Alice", age := none, created_at := 0,
           is_active := true }] []).users.map (fun u => u.email)) =
      [some "a@x.io"] ∧
    registerMock (MockDB.mk
        [{ id := "u1", email := some "a@x.io", password := some "h",
           name := some "Alice", age := none, created_at := 0,
           is_active := true }] [])
        "a@x.io" "h2" "Bob" none "u2" "p2" 5 =
      (MockDB.mk
        [{ id := "u1", email := some "a@x.io", password := some "h",
           name := some "Alice", age := none, created_at := 0,
           is_active := true }] [], .conflict) :=
  ⟨rfl,
   claim_C7_email_uniqueness.1 _ "a@x.io" "h2" "Bob" none "u2" "p2" 5
     ⟨_, List.mem_singleton_self _, rfl⟩⟩

/-- Claim C6 (amended): in live mode the profile updates are
merge-on-present — COALESCE keeps every unprovided column, provided
columns overwrite, `updated_at` is refreshed, other rows are untouched,
and when nothing is provided no UPDATE runs at all; in fallback mode
the two UPDATE statements match no branch of the mock dispatcher, so
an update is a silent no-op: nothing is overwritten and no timestamp
is refreshed. -/
theorem claim_C6_merge_update :
    (∀ (uid : String) (nm : Option String) (ag : Option Int) (now : Int)
        (u : SqlUser), u.id ≠ uid → sqlUpdateUserRow uid nm ag now u = u) ∧
    (∀ (uid : String) (nm : Option String) (ag : Option Int) (now : Int)
        (u : SqlUser), u.id = uid →
      (sqlUpdateUserRow uid nm ag now u).email = u.email ∧
      (sqlUpdateUserRow uid nm ag now u).password = u.password ∧
      (sqlUpdateUserRow uid nm ag now u).created_at = u.created_at ∧
      (sqlUpdateUserRow uid nm ag now u).is_active = u.is_active ∧
      (nm = none → (sqlUpdateUserRow uid nm ag now u).name = u.name) ∧
      (∀ s, nm = some s → (sqlUpdateUserRow uid nm ag now u).name = s) ∧
      (ag = none → (sqlUpdateUserRow uid nm ag now u).age = u.age) ∧
      (∀ a, ag = some a → (sqlUpdateUserRow uid nm ag now u).age = some a) ∧
      (sqlUpdateUserRow uid nm ag now u).updated_at = now) ∧
    (∀ (uid : String) (mi : Option ℚ) (fg : Option String) (sl : Option ℚ)
        (now : Int) (p : SqlProfile), p.user_id ≠ uid →
      sqlUpdateProfileRow uid mi fg sl now p = p) ∧
    (∀ (uid : String) (mi : Option ℚ) (fg : Option String) (sl : Option ℚ)
        (now : Int) (p : SqlProfile), p.user_id = uid →
      (sqlUpdateProfileRow uid mi fg sl now p).id = p.id ∧
      (sqlUpdateProfileRow uid mi fg sl now p).user_id = p.user_id ∧
      (sqlUpdateProfileRow uid mi fg sl now p).created_at = p.created_at ∧
      (mi = none → (sqlUpdateProfileRow uid mi fg sl now p).monthly_income =
          p.monthly_income) ∧
      (∀ q, mi = some q → (sqlUpdateProfileRow uid mi fg sl now p).monthly_income = q) ∧
      (fg = none → (sqlUpdateProfileRow uid mi fg sl now p).financial_goals =
          p.financial_goals) ∧
      (∀ s, fg = some s → (sqlUpdateProfileRow uid mi fg sl now p).financial_goals =
          some s) ∧
      (sl = none → (sqlUpdateProfileRow uid mi fg sl now p).spending_limit =
          p.spending_limit) ∧
      (∀ q, sl = some q → (sqlUpdateProfileRow uid mi fg sl now p).spending_limit = q) ∧
      (sqlUpdateProfileRow uid mi fg sl now p).updated_at = now) ∧
    (∀ (users : List SqlUser) uid now,
      putProfileUsersPart users uid none none now = users) ∧
    (∀ (profiles : List SqlProfile) uid now,
      putProfileProfilesPart profiles uid none none none now = profiles) ∧
    (∀ (db : MockDB) (inp : MockInputs) fresh now,
      mockQuery db inp fresh now updateUsersText = (db, [])) ∧
    (∀ (db : MockDB) (inp : MockInputs) fresh now,
      mockQuery db inp fresh now updateProfilesText = (db, [])) := by
  refine ⟨?_, ?_, ?_, ?_, ?_, ?_, fun db inp fresh now => rfl,
          fun db inp fresh now => rfl⟩
  · intro uid nm ag now u h
    simp [sqlUpdateUserRow, h]
  · intro uid nm ag now u h
    cases nm <;> cases ag <;> simp [sqlUpdateUserRow, h]
  · intro uid mi fg sl now p h
    simp [sqlUpdateProfileRow, h]
  · intro uid mi fg sl now p h
    cases mi <;> cases fg <;> cases sl <;> simp [sqlUpdateProfileRow, h]
  · intro users uid now
    simp [putProfileUsersPart, nameTruthy]
  · intro profiles uid now
    simp [putProfileProfilesPart]

/-- Witness for C6: a live merge-update with only the name provided
overwrites the name, keeps the age, and refreshes `updated_at`; the
fallback update is a no-op. -/
theorem claim_C6_witness :
    (sqlUpdateUserRow "u1" (some "Bob") none 9
        (SqlUser.mk "u1" "a@x.io" "h" "Alice" (some 30) 0 0 true)).name = "Bob" ∧
    (sqlUpdateUserRow "u1" (some "Bob") none 9
        (SqlUser.mk "u1" "a@x.io" "h" "Alice" (some 30) 0 0 true)).age = some 30 ∧
    mockQuery (MockDB.mk [] []) { name := some "Bob", id := some "u1" } "f" 9
        updateUsersText = (MockDB.mk [] [], []) :=
  ⟨(claim_C6_merge_update.2.1 "u1" (some "Bob") none 9 _ rfl).2.2.2.2.2.1
      "Bob" rfl,
   (claim_C6_merge_update.2.1 "u1" (some "Bob") none 9 _ rfl).2.2.2.2.2.2.1
      rfl,
   claim_C6_merge_update.2.2.2.2.2.2.1 _ _ "f" 9⟩

/-- Concrete fallback store for the C5/C6 counterexamples: one active
user with a profile row. -/
def oneUserMockDb : MockDB :=
  { users := [{ id := "u1", email := some "a@x.io", password := some "h",
                name := some "Alice", age := none, created_at := 0,
                is_active := true }],
    user_profiles := [{ id := "p1", user_id := some "u1",
                        monthly_income := 100, spending_limit := 50 }] }

/-- Counterexample for C6: in fallback mode, a profile update providing
a new name leaves the store byte-identical — the name is not
overwritten and no timestamp is refreshed — although the route reports
success. -/
theorem claim_C6_counterexample :
    (mockQuery oneUserMockDb { name := some "Bob", id := some "u1" } "f" 99
        updateUsersText).1 = oneUserMockDb ∧
    ((mockQuery oneUserMockDb { name := some "Bob", id := some "u1" } "f" 99
        updateUsersText).1.users.map (fun u => u.name)) = [some "Alice"] ∧
    (some "Alice" : Option String) ≠ some "Bob" :=
  ⟨rfl, rfl, by decide⟩

/-- Claim C5 (amended): in the live path the profile lookup is a left
join restricted to active users, carrying the user's columns and the
profile columns when a profile row exists, and SQL NULL (not zero)
profile columns when none does; in the fallback path the profile query
is captured by the email-lookup branch of the mock dispatcher and
compares stored emails against an unset input, so for every store
whose users carry an email the lookup returns an empty recordset and
the route answers 404. -/
theorem claim_C5_profile_lookup :
    (∀ (db : SqlDB) uid v, v ∈ liveGetProfile db uid →
      ∃ u ∈ db.users, u.id = uid ∧ u.is_active = true ∧
        v = joinView db.user_profiles u) ∧
    (∀ (db : SqlDB) uid (u : SqlUser), u ∈ db.users → u.id = uid →
      u.is_active = true → joinView db.user_profiles u ∈ liveGetProfile db uid) ∧
    (∀ (profiles : List SqlProfile) (u : SqlUser),
      (joinView profiles u).id = u.id ∧
      (joinView profiles u).email = u.email ∧
      (joinView profiles u).name = u.name ∧
      (joinView profiles u).age = u.age ∧
      (joinView profiles u).created_at = u.created_at ∧
      (profiles.find? (fun p => decide (p.user_id = u.id)) = none →
        (joinView profiles u).monthly_income = none ∧
        (joinView profiles u).financial_goals = none ∧
        (joinView profiles u).spending_limit = none) ∧
      (∀ p, profiles.find? (fun p => decide (p.user_id = u.id)) = some p →
        (joinView profiles u).monthly_income = some p.monthly_income ∧
        (joinView profiles u).financial_goals = p.financial_goals ∧
        (joinView profiles u).spending_limit = some p.spending_limit)) ∧
    (∀ (db : MockDB) uid fresh now,
      (∀ u ∈ db.users, u.email ≠ none) →
      mockQuery db { id := some uid } fresh now profileSelectText = (db, [])) := by
  refine ⟨?_, ?_, ?_, ?_⟩
  · intro db uid v hv
    rw [liveGetProfile] at hv
    obtain ⟨u, hu, hvu⟩ := List.mem_map.mp hv
    have := List.mem_filter.mp hu
    refine ⟨u, this.1, ?_, ?_, hvu.symm⟩
    · have h1 := this.2
      simp only [Bool.and_eq_true, decide_eq_true_eq] at h1
      exact h1.1
    · have h1 := this.2
      simp only [Bool.and_eq_true, decide_eq_true_eq] at h1
      exact h1.2
  · intro db uid u hu hid hact
    rw [liveGetProfile]
    exact List.mem_map_of_mem _ (List.mem_filter.mpr ⟨hu, by simp [hid, hact]⟩)
  · intro profiles u
    refine ⟨?_, ?_, ?_, ?_, ?_, ?_, ?_⟩
    all_goals
      cases hfind : profiles.find? (fun p => decide (p.user_id = u.id)) <;>
        simp [joinView, hfind]
  · intro db uid fresh now h
    have hfind : db.users.find?
        (fun u => decide (u.email = (none : Option String))) = none := by
      rw [List.find?_eq_none]
      intro x hx
      simp only [decide_eq_true_eq]
      exact h x hx
    rw [mockQuery_profileSelect]
    simp only [hfind]

/-- Witness for C5: the live lookup on a one-user store with no profile
row returns the joined view with NULL profile columns, and the fallback
lookup on `oneUserMockDb` is empty. -/
theorem claim_C5_witness :
    joinView [] (SqlUser.mk "u1" "a@x.io" "h" "Alice" none 0 0 true) ∈
      liveGetProfile (SqlDB.mk
        [SqlUser.mk "u1" "a@x.io" "h" "Alice" none 0 0 true] []) "u1" ∧
    mockQuery oneUserMockDb { id := some "u1" } "f" 7 profileSelectText =
      (oneUserMockDb, []) :=
  ⟨claim_C5_profile_lookup.2.1 _ "u1" _ (List.mem_singleton_self _) rfl rfl,
   claim_C5_profile_lookup.2.2.2 oneUserMockDb "u1" "f" 7
     (by intro u hu; simp only [oneUserMockDb, List.mem_singleton] at hu; subst hu; simp)⟩

/-- Counterexample for C5: `oneUserMockDb` holds an active user `u1`
with a profile row, yet the fallback profile lookup for `u1` returns an
empty recordset (the route answers 404) instead of the merged row the
claim promises. -/
theorem claim_C5_counterexample :
    oneUserMockDb.users ≠ [] ∧
    (oneUserMockDb.users.map (fun u => u.is_active)) = [true] ∧
    (mockQuery oneUserMockDb { id := some "u1" } "f" 0 profileSelectText).2 = [] :=
  ⟨by decide, rfl, rfl⟩

end FinCloud
